import Mathlib

/-!
Shallow embedding of the emotion-analysis pipeline of the Briefly backend
(quantum-backend/api/processing.py and quantum-backend/services/ai_service.py).
Real-valued quantities (timestamps, intensities, scores) are modelled as
rationals; Python dicts iterated as association lists.
-/

namespace Briefly

/-! ## Small helpers -/

/-- Floor of a rational, written so the kernel can evaluate it: the numerator
divided (integer floor division) by the positive denominator. This agrees with
the mathematical floor, see `ratFloor_eq`. -/
def ratFloor (q : ℚ) : ℤ := q.num / q.den

theorem ratFloor_eq (q : ℚ) : ratFloor q = ⌊q⌋ := by
  simp only [ratFloor]
  exact Rat.floor_def.symm

/-- ASCII lowercasing of a character, the effect of the Python `str.lower`
on the ASCII emotion labels used by the code. -/
def lowerChar (c : Char) : Char :=
  if c.isUpper then Char.ofNat (c.toNat + 32) else c

/-- Model of the Python `str.lower` on ASCII strings. -/
def lowerStr (s : String) : String := ⟨s.data.map lowerChar⟩

/-! ## Engagement scorers -/

/-- Weight lookup `emotion_scores.get(emotion_lower, 0.5)` of the
distribution-weighted engagement scorer, from `stop_emotion_analysis`
(processing.py lines 782-796) and the identical table in
`analyze_video_emotions` (lines 478-492). -/
def emotionWeight (e : String) : ℚ :=
  if e = "happy" then 9/10
  else if e = "neutral" then 6/10
  else if e = "sad" then 3/10
  else if e = "angry" then 2/10
  else if e = "fear" then 3/10
  else if e = "surprise" then 7/10
  else if e = "disgust" then 2/10
  else 1/2

/-- Accumulated `total_score` of the loop at processing.py lines 792-798:
the emotion key is lowercased before lookup and the count multiplies the
weight. -/
def total_score (dist : List (String × Nat)) : ℚ :=
  (dist.map (fun p => emotionWeight (lowerStr p.1) * (p.2 : ℚ))).sum

/-- Accumulated `total_count` of the same loop. -/
def total_count (dist : List (String × Nat)) : Nat :=
  (dist.map (·.2)).sum

/-- Distribution-weighted engagement score,
`engagement_score = (total_score / total_count * 10) if total_count > 0 else 5.0`
(processing.py line 800, and line 496 in `analyze_video_emotions`). -/
def engagement_score (dist : List (String × Nat)) : ℚ :=
  if 0 < total_count dist then total_score dist / (total_count dist : ℚ) * 10 else 5

/-- Emotion data point as consumed by
`AIService.calculate_overall_emotion_score`: the Python code reads the keys
with `emotion.get("emotion", "neutral")` and `emotion.get("intensity", 0.5)`,
so each key may be absent. -/
structure EmotionPoint where
  emotion : Option String
  intensity : Option ℚ
deriving DecidableEq

/-- Base-score lookup `emotion_scores.get(emotion.get("emotion", "neutral"), 7.0)`
of `AIService.calculate_overall_emotion_score` (ai_service.py lines 225-236);
note this table is keyed without lowercasing. -/
def baseScore (e : String) : ℚ :=
  if e = "happy" then 9
  else if e = "neutral" then 7
  else if e = "concerned" then 5
  else if e = "frustrated" then 3
  else 7

/-- Round-half-to-even to an integer, the tie-breaking rule of the Python
builtin `round`. -/
def roundHalfEven (x : ℚ) : ℤ :=
  let f := ratFloor x
  let r := x - (f : ℚ)
  if r < 1/2 then f
  else if 1/2 < r then f + 1
  else if f % 2 = 0 then f else f + 1

/-- Model of the Python `round(x, 1)`: round-half-to-even at one decimal. -/
def pyRound1 (x : ℚ) : ℚ := ((roundHalfEven (x * 10) : ℚ)) / 10

/-- Accumulated `total_score` of the loop at ai_service.py lines 235-241. -/
def ai_total_score (emotions : List EmotionPoint) : ℚ :=
  (emotions.map (fun e => baseScore (e.emotion.getD "neutral") * e.intensity.getD (1/2))).sum

/-- Accumulated `total_weight` of the same loop. -/
def ai_total_weight (emotions : List EmotionPoint) : ℚ :=
  (emotions.map (fun e => e.intensity.getD (1/2))).sum

/-- Embeds `AIService.calculate_overall_emotion_score`
(ai_service.py lines 211-246): `7.0` on an empty list, `7.0` when the
accumulated weight is zero, otherwise `round(total_score / total_weight, 1)`. -/
def calculate_overall_emotion_score (emotions : List EmotionPoint) : ℚ :=
  if emotions = [] then 7
  else if ai_total_weight emotions = 0 then 7
  else pyRound1 (ai_total_score emotions / ai_total_weight emotions)

end Briefly

namespace Briefly

/-! ## Bounds for the distribution-weighted scorer -/

theorem emotionWeight_nonneg (e : String) : 0 ≤ emotionWeight e := by
  unfold emotionWeight
  repeat' split
  all_goals norm_num

theorem emotionWeight_le_one (e : String) : emotionWeight e ≤ 1 := by
  unfold emotionWeight
  repeat' split
  all_goals norm_num

theorem total_score_nonneg (dist : List (String × Nat)) : 0 ≤ total_score dist := by
  unfold total_score
  apply List.sum_nonneg
  intro x hx
  simp only [List.mem_map] at hx
  obtain ⟨p, _, rfl⟩ := hx
  exact mul_nonneg (emotionWeight_nonneg _) (by positivity)

theorem cast_total_count (dist : List (String × Nat)) :
    ((total_count dist : ℕ) : ℚ) = (dist.map (fun p => (p.2 : ℚ))).sum := by
  unfold total_count
  induction dist with
  | nil => simp
  | cons h t ih => simp [ih]

theorem total_score_le_count (dist : List (String × Nat)) :
    total_score dist ≤ (total_count dist : ℚ) := by
  rw [cast_total_count]
  unfold total_score
  apply List.sum_le_sum
  intro p _
  calc emotionWeight (lowerStr p.1) * (p.2 : ℚ) ≤ 1 * (p.2 : ℚ) :=
        mul_le_mul_of_nonneg_right (emotionWeight_le_one _) (by positivity)
    _ = (p.2 : ℚ) := one_mul _

/-- C4: the distribution-weighted engagement score equals
`total_score / total_count * 10` when the total count is positive and `5`
otherwise; it always lies in `[0, 10]`, and on the empty distribution it is
exactly `5`. -/
theorem engagement_score_spec (dist : List (String × Nat)) :
    0 ≤ engagement_score dist ∧ engagement_score dist ≤ 10 ∧
      engagement_score [] = 5 := by
  refine ⟨?_, ?_, by rfl⟩
  · unfold engagement_score
    split
    · next h =>
      have h0 : (0:ℚ) < (total_count dist : ℚ) := by exact_mod_cast h
      have := total_score_nonneg dist
      positivity
    · norm_num
  · unfold engagement_score
    split
    · next h =>
      have h0 : (0:ℚ) < (total_count dist : ℚ) := by exact_mod_cast h
      have hle : total_score dist / (total_count dist : ℚ) ≤ 1 :=
        (div_le_one h0).mpr (total_score_le_count dist)
      calc total_score dist / (total_count dist : ℚ) * 10 ≤ 1 * 10 :=
            mul_le_mul_of_nonneg_right hle (by norm_num)
        _ = 10 := one_mul _
    · norm_num

/-- C5: the intensity-weighted scorer uses the base table happy 9, neutral 7,
concerned 5, frustrated 3 with default 7 for unknown labels; on the empty
list it returns exactly 7, and on the single point with emotion happy and
intensity 1 it returns exactly 9. -/
theorem calculate_overall_emotion_score_spec :
    calculate_overall_emotion_score [] = 7 ∧
      calculate_overall_emotion_score [⟨some "happy", some 1⟩] = 9 ∧
      baseScore "happy" = 9 ∧ baseScore "neutral" = 7 ∧
      baseScore "concerned" = 5 ∧ baseScore "frustrated" = 3 ∧
      baseScore "unknown_label" = 7 := by
  refine ⟨rfl, ?_, rfl, rfl, rfl, rfl, rfl⟩
  simp [calculate_overall_emotion_score, ai_total_score, ai_total_weight,
    baseScore, pyRound1, roundHalfEven, ratFloor_eq]
  norm_num

/-- C10: on any non-empty list all of whose intensities are present and zero,
the accumulated weight is zero and the scorer returns 7 through the explicit
zero-weight guard, never evaluating the division. -/
theorem calculate_overall_emotion_score_zero_weight
    (emotions : List EmotionPoint) (hne : emotions ≠ [])
    (h0 : ∀ p ∈ emotions, p.intensity = some 0) :
    calculate_overall_emotion_score emotions = 7 := by
  have hw : ai_total_weight emotions = 0 := by
    unfold ai_total_weight
    apply List.sum_eq_zero
    intro x hx
    simp only [List.mem_map] at hx
    obtain ⟨p, hp, rfl⟩ := hx
    rw [h0 p hp]
    rfl
  unfold calculate_overall_emotion_score
  rw [if_neg hne, if_pos hw]

/-- Witness for C10 at a concrete two-point input. -/
theorem calculate_overall_emotion_score_zero_weight_witness :
    calculate_overall_emotion_score
      [⟨some "happy", some 0⟩, ⟨none, some 0⟩] = 7 :=
  calculate_overall_emotion_score_zero_weight _ (by decide) (by decide)

/-! ## Meeting summary data and the false-positive filter -/

/-- Speaking session of one tracked person inside the analyzer summary; the
endpoint code reads exactly these keys from each session dict. -/
structure SpeakingSession where
  start_time : ℚ
  end_time : ℚ
  duration : ℚ
  dominant_emotion : String
  average_confidence : ℚ
deriving DecidableEq

/-- Per-person entry of the analyzer summary: the keys read by
`stop_emotion_analysis` and `analyze_video_emotions`. -/
structure PersonData where
  person_id : Nat
  person_name : String
  total_duration : ℚ
  total_frames : Nat
  speaking_sessions : List SpeakingSession
deriving DecidableEq

/-- Summary dict returned by the analyzer and post-processed by the
endpoints. -/
structure MeetingSummary where
  meeting_duration : ℚ
  total_people_detected : Nat
  total_people_active : Nat
  overall_emotion_distribution : List (String × Nat)
  people : List PersonData
deriving DecidableEq

/-- Retention test of the false-positive filter,
`person_duration >= min_duration_seconds and total_frames >= 30`
(processing.py line 765 and line 417). -/
def keepPerson (minDur : ℚ) (p : PersonData) : Bool :=
  decide (minDur ≤ p.total_duration) && decide (30 ≤ p.total_frames)

/-- Renumbering loop `for idx, person_data in enumerate(filtered_people, 1)`
(processing.py lines 774-777 and 426-428): assigns sequential ids starting at
`k` and the matching display names. -/
def renumberFrom (k : Nat) : List PersonData → List PersonData
  | [] => []
  | p :: rest =>
      { p with person_id := k, person_name := "Person " ++ toString k } ::
        renumberFrom (k + 1) rest

/-- False-positive filter applied at stop (processing.py lines 757-778) and
identically at batch video analysis (lines 410-428): when the meeting
duration is positive, keeps only people passing `keepPerson` with
`min_duration_seconds = max(meeting_duration * 0.05, 3.0)`, updates the
active count, and renumbers the survivors from 1. -/
def filter_false_positives (s : MeetingSummary) : MeetingSummary :=
  if 0 < s.meeting_duration then
    let minDur := max (s.meeting_duration * (5/100)) 3
    let filtered := s.people.filter (keepPerson minDur)
    { s with
        people := renumberFrom 1 filtered,
        total_people_active := filtered.length }
  else s

theorem mem_renumberFrom {k : Nat} {l : List PersonData} {p : PersonData}
    (h : p ∈ renumberFrom k l) :
    ∃ q ∈ l, p.total_duration = q.total_duration ∧
      p.total_frames = q.total_frames ∧
      p.speaking_sessions = q.speaking_sessions := by
  induction l generalizing k with
  | nil => simp [renumberFrom] at h
  | cons q rest ih =>
    simp only [renumberFrom, List.mem_cons] at h
    rcases h with h | h
    · exact ⟨q, List.mem_cons_self q rest, by simp [h]⟩
    · obtain ⟨r, hr, hd⟩ := ih h
      exact ⟨r, List.mem_cons_of_mem q hr, hd⟩

/-- C2: whenever the false-positive filter runs on a summary with positive
meeting duration, every person surviving into the final summary has at least
30 observed frames and at least `max(0.05 * duration, 3.0)` seconds of
observed duration. -/
theorem survivors_meet_thresholds (s : MeetingSummary)
    (h : 0 < s.meeting_duration) (p : PersonData)
    (hp : p ∈ (filter_false_positives s).people) :
    30 ≤ p.total_frames ∧
      max (s.meeting_duration * (5/100)) 3 ≤ p.total_duration := by
  unfold filter_false_positives at hp
  rw [if_pos h] at hp
  simp only at hp
  obtain ⟨q, hq, hdur, hfr, _⟩ := mem_renumberFrom hp
  rw [List.mem_filter] at hq
  have hk := hq.2
  unfold keepPerson at hk
  rw [Bool.and_eq_true, decide_eq_true_eq, decide_eq_true_eq] at hk
  exact ⟨hfr ▸ hk.2, hdur ▸ hk.1⟩

/-- Witness summary: duration 100 seconds, three people of which the first
and third pass both thresholds and the second fails both. -/
def witnessSummary : MeetingSummary :=
  { meeting_duration := 100
    total_people_detected := 3
    total_people_active := 3
    overall_emotion_distribution := [("happy", 40), ("sad", 10)]
    people :=
      [ { person_id := 7, person_name := "Person 7", total_duration := 50,
          total_frames := 40, speaking_sessions := [] },
        { person_id := 3, person_name := "Person 3", total_duration := 2,
          total_frames := 10, speaking_sessions := [] },
        { person_id := 9, person_name := "Person 9", total_duration := 30,
          total_frames := 35, speaking_sessions := [] } ] }

/-- Witness for C2: the thresholds hold for a concrete survivor of the
concrete summary. -/
theorem survivors_meet_thresholds_witness :
    ∃ p ∈ (filter_false_positives witnessSummary).people,
      30 ≤ p.total_frames ∧
        max (witnessSummary.meeting_duration * (5/100)) 3 ≤ p.total_duration := by
  have hmem : ({ person_id := 1, person_name := "Person 1",
                 total_duration := 50, total_frames := 40,
                 speaking_sessions := [] } : PersonData) ∈
      (filter_false_positives witnessSummary).people := by
    norm_num [filter_false_positives, witnessSummary, keepPerson, renumberFrom]
    rfl
  exact ⟨_, hmem,
    survivors_meet_thresholds witnessSummary (by norm_num [witnessSummary]) _ hmem⟩

theorem renumberFrom_map_id (k : Nat) (l : List PersonData) :
    (renumberFrom k l).map (·.person_id) = List.range' k l.length := by
  induction l generalizing k with
  | nil => simp [renumberFrom]
  | cons p rest ih => simp [renumberFrom, List.range', ih]

theorem renumberFrom_map_name (k : Nat) (l : List PersonData) :
    (renumberFrom k l).map (·.person_name) =
      (List.range' k l.length).map (fun i => "Person " ++ toString i) := by
  induction l generalizing k with
  | nil => simp [renumberFrom]
  | cons p rest ih => simp [renumberFrom, List.range', ih]

theorem renumberFrom_map_content (k : Nat) (l : List PersonData) :
    (renumberFrom k l).map
        (fun p => (p.total_duration, p.total_frames, p.speaking_sessions)) =
      l.map (fun p => (p.total_duration, p.total_frames, p.speaking_sessions)) := by
  induction l generalizing k with
  | nil => simp [renumberFrom]
  | cons p rest ih => simp [renumberFrom, ih]

theorem renumberFrom_length (k : Nat) (l : List PersonData) :
    (renumberFrom k l).length = l.length := by
  induction l generalizing k with
  | nil => simp [renumberFrom]
  | cons p rest ih => simp [renumberFrom, ih]

/-- C3: whenever the false-positive filter runs on a summary with positive
meeting duration, the surviving people carry exactly the identifiers
`1..K` in order, the display names `"Person k"`, and their observation data
is that of the survivors of the threshold filter in original relative
order, independently of the identifiers assigned during tracking. -/
theorem renumbered_contiguous (s : MeetingSummary) (h : 0 < s.meeting_duration) :
    ((filter_false_positives s).people).map (·.person_id) =
        List.range' 1 ((filter_false_positives s).people).length ∧
      ((filter_false_positives s).people).map (·.person_name) =
        (List.range' 1 ((filter_false_positives s).people).length).map
          (fun k => "Person " ++ toString k) ∧
      ((filter_false_positives s).people).map
          (fun p => (p.total_duration, p.total_frames, p.speaking_sessions)) =
        (s.people.filter (keepPerson (max (s.meeting_duration * (5/100)) 3))).map
          (fun p => (p.total_duration, p.total_frames, p.speaking_sessions)) := by
  unfold filter_false_positives
  rw [if_pos h]
  simp only
  refine ⟨?_, ?_, renumberFrom_map_content 1 _⟩
  · rw [renumberFrom_map_id, renumberFrom_length]
  · rw [renumberFrom_map_name, renumberFrom_length]

/-- Witness for C3 at the concrete three-person summary. -/
theorem renumbered_contiguous_witness :
    ((filter_false_positives witnessSummary).people).map (·.person_id) =
        List.range' 1 ((filter_false_positives witnessSummary).people).length ∧
      ((filter_false_positives witnessSummary).people).map (·.person_name) =
        (List.range' 1 ((filter_false_positives witnessSummary).people).length).map
          (fun k => "Person " ++ toString k) ∧
      ((filter_false_positives witnessSummary).people).map
          (fun p => (p.total_duration, p.total_frames, p.speaking_sessions)) =
        (witnessSummary.people.filter
            (keepPerson (max (witnessSummary.meeting_duration * (5/100)) 3))).map
          (fun p => (p.total_duration, p.total_frames, p.speaking_sessions)) :=
  renumbered_contiguous witnessSummary (by norm_num [witnessSummary])

/-! ## Live analysis sessions, emotion store and lifecycle endpoints -/

/-- Entry of `active_emotion_analyzers` for one meeting: the dict built in
`start_emotion_analysis` (processing.py lines 617-622) holding the wall-clock
start time and the processed-frame counter, plus the `last_save_time` slot
written by `process_emotion_frame`. The analyzer object itself is the
external model and carries no state relevant to these claims. -/
structure SessionData where
  start_time : ℚ
  frames_processed : Nat
  last_save_time : Option ℚ
deriving DecidableEq

/-- Persisted `Emotion` row (database.py): meeting identifier, `MM:SS`
timestamp string, emotion label and intensity. -/
structure EmotionRec where
  meeting_id : String
  timestamp : String
  emotion : String
  intensity : ℚ
deriving DecidableEq

/-- Persisted `Meeting` row, restricted to the fields the emotion lifecycle
touches. -/
structure MeetingRow where
  platform : String
  title : String
  status : String
  duration : Option Nat
deriving DecidableEq

/-- Process-wide mutable state seen by the emotion endpoints: the
`active_emotion_analyzers` registry and the two relevant database tables. -/
structure ServerState where
  analyzers : List (String × SessionData)
  meetings : List (String × MeetingRow)
  emotions : List EmotionRec
deriving DecidableEq

/-- Dict lookup on an association list. -/
def lookupA {α : Type} (l : List (String × α)) (k : String) : Option α :=
  (l.find? (fun p => p.1 == k)).map (·.2)

/-- Dict update of an existing key, in place. -/
def updateA {α : Type} (l : List (String × α)) (k : String) (v : α) :
    List (String × α) :=
  l.map (fun p => if p.1 == k then (k, v) else p)

/-- Dict assignment: update when the key exists, append otherwise, matching
Python insertion-order semantics. -/
def insertA {α : Type} (l : List (String × α)) (k : String) (v : α) :
    List (String × α) :=
  if (lookupA l k).isSome then updateA l k v else l ++ [(k, v)]

/-- Dict key deletion. -/
def removeA {α : Type} (l : List (String × α)) (k : String) :
    List (String × α) :=
  l.filter (fun p => !(p.1 == k))

/-- Outcome of an endpoint call: normal response or an `HTTPException` with
the given status code. -/
inductive ApiResult
  | ok
  | httpError (code : Nat)
deriving DecidableEq

/-- Two-digit zero padding, the `02d` format used for minutes and seconds. -/
def pad2 (n : Nat) : String := if n < 10 then "0" ++ toString n else toString n

/-- Timestamp string built at processing.py lines 700-703 (and identically in
the timeline builders): minutes `ts // 60` and seconds `ts % 60`, both
floored, for the nonnegative timestamps the code produces. -/
def fmtMMSS (ts : ℚ) : String :=
  pad2 (ratFloor (ts / 60)).toNat ++ ":" ++
    pad2 (ratFloor ts - 60 * ratFloor (ts / 60)).toNat

/-- Response of `start_emotion_analysis`: success flag and message. -/
structure StartResp where
  success : Bool
  message : String
deriving DecidableEq

/-- Embeds `start_emotion_analysis` (processing.py lines 576-645): an
already-running meeting returns success immediately without touching any
state; otherwise a fresh session with a zero frame counter is registered and
the meeting row is created or flipped to active. -/
def start_emotion_analysis (platform mid : String) (now : ℚ) (st : ServerState) :
    ServerState × StartResp :=
  if (lookupA st.analyzers mid).isSome then
    (st, ⟨true, "Emotion analysis already running for this meeting"⟩)
  else
    let st1 := { st with analyzers := insertA st.analyzers mid ⟨now, 0, none⟩ }
    let st2 :=
      { st1 with
          meetings :=
            match lookupA st1.meetings mid with
            | none =>
                insertA st1.meetings mid ⟨platform, "Meeting " ++ mid, "active", none⟩
            | some m => updateA st1.meetings mid { m with status := "active" } }
    (st2, ⟨true, "Emotion analysis started successfully"⟩)

/-- Per-face result dict of `analyzer.process_frame`, read with
`frame_result.get("emotion", "neutral")` and
`frame_result.get("confidence", 0.5)`. -/
structure FrameRes where
  emotion : Option String
  confidence : Option ℚ
deriving DecidableEq

/-- Emotion row written by the periodic flush in `process_emotion_frame`
(processing.py lines 699-711). -/
def mkFrameRec (mid : String) (ts : ℚ) (fr : FrameRes) : EmotionRec :=
  { meeting_id := mid
    timestamp := fmtMMSS ts
    emotion := lowerStr (fr.emotion.getD "neutral")
    intensity := fr.confidence.getD (1/2) }

/-- Embeds `process_emotion_frame` (processing.py lines 654-728). Without a
live session the call fails with status 400. Otherwise the frame counter is
incremented; then, because `hasattr` on a dict inspects attributes rather
than keys, the guarded initialization of `last_save_time` runs on every call
and resets it to the current time before the flush condition reads it; the
flush then appends one `Emotion` row per frame result to the store. The
decoded frame itself only feeds the external analyzer, whose per-frame result
list is the `frame_results` input. -/
def process_emotion_frame (mid : String) (now : ℚ) (frame_results : List FrameRes)
    (st : ServerState) : ServerState × ApiResult :=
  match lookupA st.analyzers mid with
  | none => (st, .httpError 400)
  | some sd0 =>
    let sd1 := { sd0 with frames_processed := sd0.frames_processed + 1 }
    let sd2 := { sd1 with last_save_time := some now }
    if sd2.frames_processed % 10 == 0 ||
        decide (5 ≤ now - (sd2.last_save_time.getD now)) then
      let recs := frame_results.map (mkFrameRec mid (now - sd2.start_time))
      let sd3 := { sd2 with last_save_time := some now }
      ({ st with
          analyzers := updateA st.analyzers mid sd3,
          emotions := st.emotions ++ recs }, .ok)
    else
      ({ st with analyzers := updateA st.analyzers mid sd2 }, .ok)

/-- Timeline point dict appended at processing.py lines 821-825. -/
structure TimelinePoint where
  timestamp : String
  emotion : String
  intensity : ℚ
deriving DecidableEq

/-- Emotion label of a timeline point:
`dominant_emotion.lower() if dominant_emotion else "neutral"`. -/
def timelineLabel (d : String) : String :=
  if d == "" then "neutral" else lowerStr d

/-- Samples of one speaking session (processing.py lines 807-825): for a
positive duration, `max(1, int(duration / 5))` points spread evenly from the
session start, each carrying the session dominant emotion and average
confidence. -/
def sessionSamples (s : SpeakingSession) : List TimelinePoint :=
  if 0 < s.duration then
    let n := max 1 (ratFloor (s.duration / 5)).toNat
    (List.range n).map (fun i =>
      { timestamp := fmtMMSS (s.start_time + (i : ℚ) * s.duration / (n : ℚ))
        emotion := timelineLabel s.dominant_emotion
        intensity := s.average_confidence })
  else []

/-- Emotion timeline of the final filtered summary (processing.py lines
802-825): all session samples of all surviving people, in order. -/
def emotion_timeline (people : List PersonData) : List TimelinePoint :=
  people.flatMap (fun p => p.speaking_sessions.flatMap sessionSamples)

/-- Emotion row persisted at stop for one timeline point (processing.py
lines 829-836). -/
def mkStopRec (mid : String) (tp : TimelinePoint) : EmotionRec :=
  { meeting_id := mid
    timestamp := tp.timestamp
    emotion := tp.emotion
    intensity := tp.intensity }

/-- Embeds `stop_emotion_analysis` (processing.py lines 731-922). Without a
live session the call fails with status 400. Otherwise the analyzer summary
(input, produced externally by `get_meeting_summary(min_frames_for_summary=30)`)
runs through the false-positive filter, the timeline of the filtered people
is computed, all prior `Emotion` rows of this meeting are deleted and the
timeline rows inserted, the meeting row is completed with its duration in
minutes, and the session leaves the registry. -/
def stop_emotion_analysis (mid : String) (summary : MeetingSummary)
    (st : ServerState) : ServerState × ApiResult :=
  match lookupA st.analyzers mid with
  | none => (st, .httpError 400)
  | some _ =>
    let summary2 := filter_false_positives summary
    let timeline := emotion_timeline summary2.people
    let emotions2 :=
      st.emotions.filter (fun r => !(r.meeting_id == mid)) ++
        timeline.map (mkStopRec mid)
    let meetings2 :=
      match lookupA st.meetings mid with
      | none => st.meetings
      | some m =>
          updateA st.meetings mid
            { m with
                status := "completed"
                duration :=
                  if summary2.meeting_duration ≠ 0 then
                    some (ratFloor (summary2.meeting_duration / 60)).toNat
                  else m.duration }
    ({ analyzers := removeA st.analyzers mid
       meetings := meetings2
       emotions := emotions2 }, .ok)

/-! ## Association-list lemmas -/

theorem lookupA_updateA {α : Type} (l : List (String × α)) (k : String) (v : α) :
    (lookupA l k).isSome → lookupA (updateA l k v) k = some v := by
  induction l with
  | nil => intro h; simp [lookupA] at h
  | cons p rest ih =>
    obtain ⟨a, b⟩ := p
    intro h
    cases hp : a == k with
    | true => simp [updateA, lookupA, List.find?, hp]
    | false =>
      have h' : (lookupA rest k).isSome := by
        simpa [lookupA, List.find?, hp] using h
      simpa [updateA, lookupA, List.find?, hp] using ih h'

theorem lookupA_append_right {α : Type} (l : List (String × α)) (k : String)
    (v : α) : lookupA l k = none → lookupA (l ++ [(k, v)]) k = some v := by
  induction l with
  | nil => intro; simp [lookupA, List.find?]
  | cons p rest ih =>
    obtain ⟨a, b⟩ := p
    intro h
    cases hp : a == k with
    | true => simp [lookupA, List.find?, hp] at h
    | false =>
      have h' : lookupA rest k = none := by
        simpa [lookupA, List.find?, hp] using h
      simpa [lookupA, List.find?, hp] using ih h'

theorem lookupA_insertA {α : Type} (l : List (String × α)) (k : String) (v : α) :
    lookupA (insertA l k v) k = some v := by
  unfold insertA
  split
  · next h => exact lookupA_updateA l k v h
  · next h =>
    exact lookupA_append_right l k v (Option.not_isSome_iff_eq_none.mp h)

theorem lookupA_removeA {α : Type} (l : List (String × α)) (k : String) :
    lookupA (removeA l k) k = none := by
  unfold lookupA removeA
  rw [Option.map_eq_none', List.find?_eq_none]
  intro p hp
  rw [List.mem_filter] at hp
  simpa using hp.2

/-! ## Lifecycle theorems -/

/-- C6: starting analysis twice for the same meeting without an intervening
stop returns success both times, and the second call leaves the whole server
state, in particular the frame counter and start time of the session,
untouched. -/
theorem start_twice_idempotent (platform mid : String) (t1 t2 : ℚ)
    (st : ServerState) :
    ((start_emotion_analysis platform mid t1 st).2.success = true) ∧
      ((start_emotion_analysis platform mid t2
          (start_emotion_analysis platform mid t1 st).1).2.success = true) ∧
      (start_emotion_analysis platform mid t2
          (start_emotion_analysis platform mid t1 st).1).1 =
        (start_emotion_analysis platform mid t1 st).1 := by
  have hsucc : ∀ (t : ℚ) (s : ServerState),
      (start_emotion_analysis platform mid t s).2.success = true := by
    intro t s
    unfold start_emotion_analysis
    split <;> rfl
  refine ⟨hsucc t1 st, hsucc t2 _, ?_⟩
  have hlive : (lookupA (start_emotion_analysis platform mid t1 st).1.analyzers
      mid).isSome := by
    unfold start_emotion_analysis
    split
    · next h => exact h
    · simp [lookupA_insertA]
  conv_lhs => rw [start_emotion_analysis]
  rw [if_pos hlive]

/-- C7: with no live session for the meeting identifier, both
`process_emotion_frame` and `stop_emotion_analysis` fail with an
`HTTPException` of status 400 and leave the server state untouched. -/
theorem no_session_precondition_errors (mid : String) (now : ℚ)
    (frame_results : List FrameRes) (summary : MeetingSummary)
    (st : ServerState) (h : lookupA st.analyzers mid = none) :
    process_emotion_frame mid now frame_results st = (st, .httpError 400) ∧
      stop_emotion_analysis mid summary st = (st, .httpError 400) := by
  constructor <;> simp [process_emotion_frame, stop_emotion_analysis, h]

/-- Witness for C7 on the empty server state. -/
theorem no_session_precondition_errors_witness :
    process_emotion_frame "meet-1" 0 [] ⟨[], [], []⟩ =
        (⟨[], [], []⟩, .httpError 400) ∧
      stop_emotion_analysis "meet-1" witnessSummary ⟨[], [], []⟩ =
        (⟨[], [], []⟩, .httpError 400) :=
  no_session_precondition_errors "meet-1" 0 [] witnessSummary ⟨[], [], []⟩ rfl

theorem stop_eq (mid : String) (summary : MeetingSummary) (st : ServerState)
    (sd : SessionData) (h : lookupA st.analyzers mid = some sd) :
    stop_emotion_analysis mid summary st =
      ({ analyzers := removeA st.analyzers mid
         meetings :=
           match lookupA st.meetings mid with
           | none => st.meetings
           | some m =>
               updateA st.meetings mid
                 { m with
                     status := "completed"
                     duration :=
                       if (filter_false_positives summary).meeting_duration ≠ 0 then
                         some (ratFloor
                           ((filter_false_positives summary).meeting_duration / 60)).toNat
                       else m.duration }
         emotions :=
           st.emotions.filter (fun r => !(r.meeting_id == mid)) ++
             (emotion_timeline (filter_false_positives summary).people).map
               (mkStopRec mid) }, .ok) := by
  unfold stop_emotion_analysis
  rw [h]

/-- C8: stopping a live session succeeds, and afterwards the persisted
emotion rows of that meeting are exactly the rows of the final filtered
timeline, other meetings keep their rows, and the session is gone from the
registry. -/
theorem stop_roundtrip (mid : String) (summary : MeetingSummary)
    (st : ServerState) (sd : SessionData)
    (h : lookupA st.analyzers mid = some sd) :
    (stop_emotion_analysis mid summary st).2 = .ok ∧
      ((stop_emotion_analysis mid summary st).1.emotions.filter
          (fun r => r.meeting_id == mid)) =
        (emotion_timeline (filter_false_positives summary).people).map
          (mkStopRec mid) ∧
      ((stop_emotion_analysis mid summary st).1.emotions.filter
          (fun r => !(r.meeting_id == mid))) =
        st.emotions.filter (fun r => !(r.meeting_id == mid)) ∧
      lookupA (stop_emotion_analysis mid summary st).1.analyzers mid = none := by
  rw [stop_eq mid summary st sd h]
  refine ⟨rfl, ?_, ?_, lookupA_removeA st.analyzers mid⟩
  · rw [List.filter_append]
    have h1 : (st.emotions.filter (fun r => !(r.meeting_id == mid))).filter
        (fun r => r.meeting_id == mid) = [] := by
      rw [List.filter_eq_nil_iff]
      intro r hr
      rw [List.mem_filter] at hr
      simpa using hr.2
    have h2 : ((emotion_timeline (filter_false_positives summary).people).map
        (mkStopRec mid)).filter (fun r => r.meeting_id == mid) =
        (emotion_timeline (filter_false_positives summary).people).map
          (mkStopRec mid) := by
      rw [List.filter_eq_self]
      intro r hr
      rw [List.mem_map] at hr
      obtain ⟨tp, _, rfl⟩ := hr
      simp [mkStopRec]
    rw [h1, h2, List.nil_append]
  · rw [List.filter_append]
    have h1 : (st.emotions.filter (fun r => !(r.meeting_id == mid))).filter
        (fun r => !(r.meeting_id == mid)) =
        st.emotions.filter (fun r => !(r.meeting_id == mid)) := by
      rw [List.filter_eq_self]
      intro r hr
      rw [List.mem_filter] at hr
      exact hr.2
    have h2 : ((emotion_timeline (filter_false_positives summary).people).map
        (mkStopRec mid)).filter (fun r => !(r.meeting_id == mid)) = [] := by
      rw [List.filter_eq_nil_iff]
      intro r hr
      rw [List.mem_map] at hr
      obtain ⟨tp, _, rfl⟩ := hr
      simp [mkStopRec]
    rw [h1, h2, List.append_nil]

/-- Witness server state: one live session for meeting m1 and two stale
emotion rows, one of meeting m1 and one of meeting m2. -/
def witnessState : ServerState :=
  { analyzers := [("m1", ⟨0, 15, some 0⟩)]
    meetings := [("m1", ⟨"zoom", "Meeting m1", "active", none⟩)]
    emotions :=
      [⟨"m1", "00:00", "happy", 7/10⟩, ⟨"m2", "00:30", "sad", 1/2⟩] }

/-- Witness for C8 at the concrete state and summary. -/
theorem stop_roundtrip_witness :
    (stop_emotion_analysis "m1" witnessSummary witnessState).2 = .ok ∧
      ((stop_emotion_analysis "m1" witnessSummary witnessState).1.emotions.filter
          (fun r => r.meeting_id == "m1")) =
        (emotion_timeline (filter_false_positives witnessSummary).people).map
          (mkStopRec "m1") ∧
      ((stop_emotion_analysis "m1" witnessSummary witnessState).1.emotions.filter
          (fun r => !(r.meeting_id == "m1"))) =
        witnessState.emotions.filter (fun r => !(r.meeting_id == "m1")) ∧
      lookupA (stop_emotion_analysis "m1" witnessSummary witnessState).1.analyzers
        "m1" = none :=
  stop_roundtrip "m1" witnessSummary witnessState ⟨0, 15, some 0⟩ rfl

/-! ## The periodic flush of process_emotion_frame -/

theorem process_frame_eq (mid : String) (now : ℚ) (frame_results : List FrameRes)
    (st : ServerState) (sd : SessionData)
    (h : lookupA st.analyzers mid = some sd) :
    process_emotion_frame mid now frame_results st =
      (if (sd.frames_processed + 1) % 10 == 0 then
        ({ st with
            analyzers := updateA st.analyzers mid
              ⟨sd.start_time, sd.frames_processed + 1, some now⟩
            emotions := st.emotions ++
              frame_results.map (mkFrameRec mid (now - sd.start_time)) }, .ok)
      else
        ({ st with
            analyzers := updateA st.analyzers mid
              ⟨sd.start_time, sd.frames_processed + 1, some now⟩ }, .ok)) := by
  unfold process_emotion_frame
  rw [h]
  have hfalse : decide ((5:ℚ) ≤ now - (some now).getD now) = false :=
    decide_eq_false (by simp)
  simp only [hfalse, Bool.or_false]

/-- C1 amended: a flush of the current frame observations happens exactly
when the incremented frame counter is a multiple of 10 (the 5-second clause
never fires, because the last-save time is reset to the current time on every
call before the condition reads it), and a flush appends the rows of the
current frame results to the store rather than replacing the meeting's prior
rows; the session survives with the counter incremented and the last-save
time equal to the call time. -/
theorem periodic_flush_amended (mid : String) (now : ℚ)
    (frame_results : List FrameRes) (st : ServerState) (sd : SessionData)
    (h : lookupA st.analyzers mid = some sd) :
    (process_emotion_frame mid now frame_results st).2 = .ok ∧
      ((process_emotion_frame mid now frame_results st).1.emotions =
        if (sd.frames_processed + 1) % 10 == 0 then
          st.emotions ++ frame_results.map (mkFrameRec mid (now - sd.start_time))
        else st.emotions) ∧
      lookupA (process_emotion_frame mid now frame_results st).1.analyzers mid =
        some ⟨sd.start_time, sd.frames_processed + 1, some now⟩ := by
  rw [process_frame_eq mid now frame_results st sd h]
  have hsome : (lookupA st.analyzers mid).isSome := by rw [h]; rfl
  by_cases hc : ((sd.frames_processed + 1) % 10 == 0) = true
  · rw [if_pos hc, if_pos hc]
    exact ⟨rfl, rfl, lookupA_updateA st.analyzers mid _ hsome⟩
  · rw [if_neg hc, if_neg hc]
    exact ⟨rfl, rfl, lookupA_updateA st.analyzers mid _ hsome⟩

/-- Witness for the amended C1: a concrete tenth frame flushes by appending,
while the sessions counter and last-save time advance. -/
theorem periodic_flush_amended_witness :
    (process_emotion_frame "m1" 2 [⟨some "Happy", some (4/5)⟩]
        ⟨[("m1", ⟨0, 9, some 0⟩)], [], [⟨"m1", "00:00", "sad", 1/2⟩]⟩).2 = .ok ∧
      ((process_emotion_frame "m1" 2 [⟨some "Happy", some (4/5)⟩]
          ⟨[("m1", ⟨0, 9, some 0⟩)], [], [⟨"m1", "00:00", "sad", 1/2⟩]⟩).1.emotions =
        if (9 + 1) % 10 == 0 then
          [⟨"m1", "00:00", "sad", 1/2⟩] ++
            [⟨some "Happy", some (4/5)⟩].map (mkFrameRec "m1" ((2:ℚ) - 0))
        else [⟨"m1", "00:00", "sad", 1/2⟩]) ∧
      lookupA (process_emotion_frame "m1" 2 [⟨some "Happy", some (4/5)⟩]
          ⟨[("m1", ⟨0, 9, some 0⟩)], [], [⟨"m1", "00:00", "sad", 1/2⟩]⟩).1.analyzers
        "m1" = some ⟨0, 9 + 1, some 2⟩ :=
  periodic_flush_amended "m1" 2 [⟨some "Happy", some (4/5)⟩]
    ⟨[("m1", ⟨0, 9, some 0⟩)], [], [⟨"m1", "00:00", "sad", 1/2⟩]⟩ ⟨0, 9, some 0⟩ rfl

/-- Iterated frame processing at a fixed call time, used to exhibit the
counterexample trace. -/
def runFrames (mid : String) (now : ℚ) (frame_results : List FrameRes) :
    Nat → ServerState → ServerState
  | 0, st => st
  | Nat.succ n, st =>
      runFrames mid now frame_results n
        (process_emotion_frame mid now frame_results st).1

theorem singleton_step (mid : String) (now t0 : ℚ) (k : Nat) (ls : Option ℚ)
    (ms : List (String × MeetingRow)) (es : List EmotionRec)
    (frs : List FrameRes) :
    process_emotion_frame mid now frs ⟨[(mid, ⟨t0, k, ls⟩)], ms, es⟩ =
      (⟨[(mid, ⟨t0, k + 1, some now⟩)], ms,
        if (k + 1) % 10 == 0 then es ++ frs.map (mkFrameRec mid (now - t0))
        else es⟩, .ok) := by
  rw [process_frame_eq mid now frs _ ⟨t0, k, ls⟩ (by simp [lookupA, List.find?])]
  by_cases hc : ((k + 1) % 10 == 0) = true
  · rw [if_pos hc, if_pos hc]
    simp [updateA]
  · rw [if_neg hc, if_neg hc]
    simp [updateA]

theorem runFrames_closed (mid : String) (now t0 : ℚ) (frs : List FrameRes)
    (n : Nat) :
    ∀ (k : Nat) (ls : Option ℚ) (ms : List (String × MeetingRow))
      (es : List EmotionRec),
    runFrames mid now frs n ⟨[(mid, ⟨t0, k, ls⟩)], ms, es⟩ =
      ⟨[(mid, ⟨t0, k + n, if n = 0 then ls else some now⟩)], ms,
        es ++ (List.replicate ((k + n) / 10 - k / 10)
          (frs.map (mkFrameRec mid (now - t0)))).flatten⟩ := by
  induction n with
  | zero =>
    intro k ls ms es
    simp [runFrames]
  | succ n ih =>
    intro k ls ms es
    rw [runFrames, singleton_step, ih (k + 1) (some now) ms _]
    have hn : k + 1 + n = k + (n + 1) := by omega
    have hsucc : (if n + 1 = 0 then ls else some now) = some now := if_neg (by omega)
    rw [hn, ite_self, hsucc]
    by_cases hc : ((k + 1) % 10 == 0) = true
    · have hm : (k + 1) % 10 = 0 := by simpa using hc
      have hcount : (k + (n + 1)) / 10 - k / 10 =
          ((k + (n + 1)) / 10 - (k + 1) / 10) + 1 := by omega
      rw [if_pos hc, hcount, List.replicate_succ, List.flatten_cons,
        ← List.append_assoc]
    · have hm : (k + 1) % 10 ≠ 0 := by simpa using hc
      have hcount : (k + (n + 1)) / 10 - k / 10 =
          (k + (n + 1)) / 10 - (k + 1) / 10 := by omega
      rw [if_neg hc, hcount]

/-- C1 counterexample: the claimed flush policy fails on concrete traces.
First, start a session for meeting m at time 0 and process one frame at time
0 and one at time 6, both carrying an observation: more than 5 seconds have
elapsed since the last flush, yet nothing is persisted, because the
dict-keyed `hasattr` guard resets `last_save_time` to the current time on
every call, so the elapsed-time clause never fires. Second, process 20
frames of one observation each: the flushes of frame 10 and frame 20 both
remain in the store, two rows in total, so a flush appends rather than
replaces the prior persisted rows of the meeting. -/
theorem periodic_flush_counterexample :
    ((process_emotion_frame "m" 6 [⟨some "happy", some (7/10)⟩]
        (process_emotion_frame "m" 0 [⟨some "happy", some (7/10)⟩]
          (start_emotion_analysis "zoom" "m" 0 ⟨[], [], []⟩).1).1).1.emotions
      = []) ∧
      ((runFrames "m" 0 [⟨some "happy", some (7/10)⟩] 20
          (start_emotion_analysis "zoom" "m" 0 ⟨[], [], []⟩).1).emotions.length
        = 2) := by
  have hst0 : (start_emotion_analysis "zoom" "m" 0 ⟨[], [], []⟩).1 =
      ⟨[("m", ⟨0, 0, none⟩)],
        [("m", ⟨"zoom", "Meeting m", "active", none⟩)], []⟩ := rfl
  constructor
  · rw [hst0, singleton_step]
    norm_num
    rw [singleton_step]
    norm_num
  · rw [hst0, runFrames_closed]
    rfl

/-! ## Not-found handling of process_meeting and get_meeting_summary -/

/-- Error raised or returned by an endpoint, status code and detail string of
the `HTTPException`. -/
structure HttpError where
  status : Nat
  detail : String
deriving DecidableEq

/-- String form of a Starlette `HTTPException`, which `str(e)` produces when
the generic handler embeds a caught exception into a new detail:
`"status_code: detail"`. -/
def excStr (e : HttpError) : String := toString e.status ++ ": " ++ e.detail

/-- Transcript segment dict, read with `seg.get("speaker", "Unknown")` and
`seg.get("text", "")` (processing.py line 75). -/
structure Segment where
  speaker : Option String
  text : Option String
deriving DecidableEq

/-- Value under the transcript key of the upstream response: a plain string,
a segment list, or anything else (processing.py lines 68-80). -/
inductive TranscriptData
  | str (s : String)
  | segs (l : List Segment)
  | other
deriving DecidableEq

/-- Flattened transcript text (processing.py lines 69-80): the string itself,
the joined speaker-prefixed lines, or the empty string for any other shape. -/
def transcript_text : TranscriptData → String
  | .str s => s
  | .segs l =>
      String.intercalate "\n"
        (l.map (fun seg => seg.speaker.getD "Unknown" ++ ": " ++ seg.text.getD ""))
  | .other => ""

/-- Body of `process_meeting` up to its first external effects
(processing.py lines 58-83): a missing transcript raises `HTTPException(404)`
and an empty transcript text raises `HTTPException(400)`; the remainder of
the pipeline (LLM calls and persistence, lines 85-201) is the `rest` input,
itself allowed to fail. The missing-transcript input stands for
`transcript_result` being falsy or lacking the transcript key. -/
def process_meeting_body (transcript_result : Option TranscriptData)
    (rest : Except HttpError Unit) : Except HttpError Unit :=
  match transcript_result with
  | none => .error ⟨404, "Transcript not found"⟩
  | some td =>
      if transcript_text td = "" then .error ⟨400, "Empty transcript"⟩
      else rest

/-- Embeds the exception handling of `process_meeting` (processing.py lines
203-209): the handler `except Exception` has no preceding
`except HTTPException: raise` clause, and `HTTPException` subclasses
`Exception`, so every error of the body, the explicit 404 included, is caught
and re-raised as `HTTPException(500, str(e))`. -/
def process_meeting (transcript_result : Option TranscriptData)
    (rest : Except HttpError Unit) : Except HttpError Unit :=
  match process_meeting_body transcript_result rest with
  | .ok u => .ok u
  | .error e => .error ⟨500, excStr e⟩

/-- Embeds `get_meeting_summary` (processing.py lines 212-236): a missing
summary row raises `HTTPException(404)`, and the surrounding handler
re-raises `HTTPException` unchanged (lines 232-233), so the 404 survives. -/
def get_meeting_summary (row : Option String) : Except HttpError String :=
  match row with
  | none => .error ⟨404, "Summary not found. Process the meeting first."⟩
  | some s => .ok s

/-- C9: with the transcript absent, `process_meeting` does not fail with a
404; its internal 404 is converted by the generic handler into a 500 whose
detail embeds the stringified original exception. With the summary row
absent, `get_meeting_summary` does fail with a 404. -/
theorem notfound_status_translation :
    (∀ rest : Except HttpError Unit,
      process_meeting none rest = .error ⟨500, "404: Transcript not found"⟩) ∧
      get_meeting_summary none =
        .error ⟨404, "Summary not found. Process the meeting first."⟩ :=
  ⟨fun _ => rfl, rfl⟩

end Briefly
